import Mathlib

/-!
# Verification of the SELENE analysis-orchestration pipeline

A shallow embedding, in Lean 4, of the analysis core of the SELENE
schematic-review tool (`selene/analysis/analyzer.py`,
`selene/analysis/prompts.py`, `selene/core/context_builder.py`), together
with theorems settling the behavioural claims about it.

Modelling conventions:
* Python strings are Lean `String`s; most text processing is carried out on
  the underlying `List Char`.
* The Python `re` patterns used by the parser all share two fixed shapes;
  they are embedded by dedicated backtracking matchers that reproduce the
  leftmost-match / greedy / lazy semantics of `re.finditer`, `re.search` and
  `re.findall` for exactly those shapes (all compiled with `re.IGNORECASE`,
  the finding patterns also with `re.DOTALL`).
* Exceptions are `Except`; the `try/except` in `SchematicAnalyzer.analyze`
  becomes an explicit `match` on the `Except`-valued pipeline body.
* External effects (file existence, gateway connectivity, image
  preparation, the per-attempt gateway outcome, `os.stat`, wall-clock time)
  are explicit parameters; wall-clock-only metadata fields
  (`analysis_time`, `timestamp`) are omitted from the result model.
* The confidence score (Python floats, all values multiples of 0.05 in
  [-0.25, 1.0] before clamping) is modelled in exact integer hundredths;
  IEEE-754 evaluation of the source agrees with exact arithmetic at both
  label thresholds for every reachable score, so the labels coincide.
-/

set_option linter.unusedVariables false

namespace Selene

/-! ## Character and string helpers (Python `str` operations) -/

/-- Python `\s` for the ASCII range: space, tab, newline, carriage return,
form feed, vertical tab. -/
def isPySpace (c : Char) : Bool :=
  c = ' ' || c = '\t' || c = '\n' || c = '\x0d' || c = '\x0c' || c = '\x0b'

/-- ASCII lower-casing, as Python `str.lower` acts on ASCII text. -/
def lowCh (c : Char) : Char :=
  if 'A' ≤ c ∧ c ≤ 'Z' then Char.ofNat (c.toNat + 32) else c

def lowList (cs : List Char) : List Char := cs.map lowCh

/-- Python `str.strip()`: drop whitespace from both ends. -/
def pyStrip (cs : List Char) : List Char :=
  ((cs.dropWhile isPySpace).reverse.dropWhile isPySpace).reverse

/-- `leadsWith needle hay`: `hay` starts with `needle` (exact chars). -/
def leadsWith : List Char → List Char → Bool
  | [], _ => true
  | _ :: _, [] => false
  | a :: as, b :: bs => a = b && leadsWith as bs

/-- Python `needle in hay` on char lists (exact substring containment). -/
def hasSeq (needle : List Char) : List Char → Bool
  | [] => leadsWith needle []
  | c :: cs => leadsWith needle (c :: cs) || hasSeq needle cs

/-- Python `kw.lower() in text.lower()` for a keyword and a text. -/
def kwIn (kw : String) (textLower : List Char) : Bool :=
  hasSeq (lowList kw.data) textLower

def isAsciiUpper (c : Char) : Bool := 'A' ≤ c && c ≤ 'Z'

def isAsciiLower (c : Char) : Bool := 'a' ≤ c && c ≤ 'z'

def isAsciiLetter (c : Char) : Bool := isAsciiUpper c || isAsciiLower c

def isDigitCh (c : Char) : Bool := '0' ≤ c && c ≤ '9'

/-- Case-insensitive character equality (ASCII folding, as `re.IGNORECASE`
acts on the ASCII letters occurring in the source's patterns). -/
def chEqCI (a b : Char) : Bool := lowCh a = lowCh b

/-! ## A backtracking matcher for the source's regular expressions

All extraction patterns in `analyzer.py` share one of two shapes:

* shape A: `(?i)KW[s]?\s*:?\s*(.+?)(?=\n\n|\n[A-Z]|$)` with `re.DOTALL`
  (KW one of issue/problem/concern/warning/error, verified/correct/good,
  recommend/suggest);
* shape B: `(?i)KW\s+(.+?)(?=\n\n|\n[A-Z]|$)` with `re.DOTALL`
  (KW one of should/consider).

The matchers below reproduce `re` semantics for these shapes: alternatives
and quantifier lengths are explored in standard backtracking priority order
(greedy `?`/`\s*`/`\s+` longest-first, lazy `.+?` shortest-first), and the
first full success wins.  Under `(?i)` the class `[A-Z]` in the lookahead
matches both letter cases.  `$` (no `re.MULTILINE`) matches at the end of
the text or just before a single trailing newline. -/

/-- The zero-width lookahead `(?=\n\n|\n[A-Z]|$)` under `re.IGNORECASE`,
tested against the remaining text. -/
def lookaheadOk : List Char → Bool
  | [] => true
  | ['\n'] => true
  | '\n' :: c :: _ => c = '\n' || isAsciiLetter c
  | _ => false

/-- Lazy `(.+?)` followed by the lookahead: the shortest capture of at
least one character whose remainder satisfies `lookaheadOk`.  Returns the
capture and the remainder (the match ends where the capture ends, since
the lookahead is zero-width). -/
def captureLazy : List Char → Option (List Char × List Char)
  | [] => none
  | c :: cs =>
    if lookaheadOk cs then some ([c], cs)
    else
      match captureLazy cs with
      | some (cap, rest) => some (c :: cap, rest)
      | none => none

/-- Greedy `\s*`: remainders after consuming a run of whitespace, longest
consumption first (backtracking order). -/
def wsStarCands : List Char → List (List Char)
  | [] => [[]]
  | c :: cs => if isPySpace c then wsStarCands cs ++ [c :: cs] else [c :: cs]

/-- Greedy `\s+`: like `wsStarCands` but at least one whitespace character
must be consumed. -/
def wsPlusCands : List Char → List (List Char)
  | [] => []
  | c :: cs => if isPySpace c then wsStarCands cs else []

/-- Greedy `X?` for a single character matched case-insensitively:
try consuming first, then the empty alternative. -/
def optCharCands (t : Char) : List Char → List (List Char)
  | [] => [[]]
  | c :: cs => if chEqCI c t then [cs, c :: cs] else [c :: cs]

/-- Try each candidate in order, returning the first success. -/
def firstSome {α β : Type} (f : α → Option β) : List α → Option β
  | [] => none
  | a :: as =>
    match f a with
    | some b => some b
    | none => firstSome f as

/-- Match a literal case-insensitively at the head; returns the consumed
original characters and the remainder. -/
def splitLitCI : List Char → List Char → Option (List Char × List Char)
  | [], cs => some ([], cs)
  | _ :: _, [] => none
  | k :: ks, c :: cs =>
    if chEqCI c k then
      match splitLitCI ks cs with
      | some (tk, rest) => some (c :: tk, rest)
      | none => none
    else none

/-- Shape-A tail `[s]?\s*:?\s*(.+?)(?=…)` applied after the keyword;
returns (capture, remainder-after-match). -/
def tailShapeA (cs : List Char) : Option (List Char × List Char) :=
  firstSome (fun cs1 =>
    firstSome (fun cs2 =>
      firstSome (fun cs3 =>
        firstSome captureLazy (wsStarCands cs3))
        (optCharCands ':' cs2))
      (wsStarCands cs1))
    (optCharCands 's' cs)

/-- Shape-B tail `\s+(.+?)(?=…)` applied after the keyword. -/
def tailShapeB (cs : List Char) : Option (List Char × List Char) :=
  firstSome captureLazy (wsPlusCands cs)

/-- `re.finditer` for a shape-A pattern: scan left to right, at each
position try the keyword then the tail; on success emit the capture and
resume at the end of the match.  `fuel` bounds the recursion and is
initialised to more than the text length, which every scan step decreases
the text by at least one character against. -/
def findCapsA (kw : List Char) : Nat → List Char → List (List Char)
  | 0, _ => []
  | _ + 1, [] => []
  | fuel + 1, c :: cs =>
    match splitLitCI kw (c :: cs) with
    | some (_, afterKw) =>
      match tailShapeA afterKw with
      | some (cap, afterMatch) => cap :: findCapsA kw fuel afterMatch
      | none => findCapsA kw fuel cs
    | none => findCapsA kw fuel cs

/-- `re.finditer` for a shape-B pattern. -/
def findCapsB (kw : List Char) : Nat → List Char → List (List Char)
  | 0, _ => []
  | _ + 1, [] => []
  | fuel + 1, c :: cs =>
    match splitLitCI kw (c :: cs) with
    | some (_, afterKw) =>
      match tailShapeB afterKw with
      | some (cap, afterMatch) => cap :: findCapsB kw fuel afterMatch
      | none => findCapsB kw fuel cs
    | none => findCapsB kw fuel cs

/-- All captures of the shape-A pattern with keyword `kw` in `text`. -/
def findAllA (kw : String) (text : List Char) : List (List Char) :=
  findCapsA kw.data (text.length + 1) text

/-- All captures of the shape-B pattern with keyword `kw` in `text`. -/
def findAllB (kw : String) (text : List Char) : List (List Char) :=
  findCapsB kw.data (text.length + 1) text

/-! ## Sentence splitting: `re.split(r'[.!?]+', text)` -/

def isSentDelim (c : Char) : Bool := c = '.' || c = '!' || c = '?'

/-- State machine for `re.split(r'[.!?]+', …)`: pieces between maximal
runs of sentence delimiters; leading/trailing runs contribute empty
pieces, exactly as `re.split` does. -/
def splitSentsGo : Bool → List Char → List Char → List (List Char)
  | _, acc, [] => [acc.reverse]
  | inDelim, acc, c :: cs =>
    if isSentDelim c then
      if inDelim then splitSentsGo true acc cs
      else acc.reverse :: splitSentsGo true [] cs
    else splitSentsGo false (c :: acc) cs

def splitSents (text : List Char) : List (List Char) :=
  splitSentsGo false [] text

/-! ## Component / pin reference regexes

`identify_issues` uses `re.search(r'([RCLUQDJXYrclugdxj]\d+|pin\s*\d+)',
sentence, re.IGNORECASE)`; `estimate_confidence` counts
`re.findall(r'[RCLUQDrclugd]\d+|pin\s*\d+', text, re.IGNORECASE)`.
Under `re.IGNORECASE` each character class is the case-folded union of its
members.  In both alternations the quantifiers are deterministic once the
start position is fixed: `\d+` is a maximal digit run, and in
`pin\s*\d+` only the full whitespace run can be followed by a digit. -/

/-- Case-folded `[RCLUQDJXYrclugdxj]` (the union adds `g`, `j`, `x`, `y`,
`q` across cases). -/
def compClassWide : List Char := ['r', 'c', 'l', 'u', 'q', 'd', 'j', 'x', 'y', 'g']

/-- Case-folded `[RCLUQDrclugd]`. -/
def compClassNarrow : List Char := ['r', 'c', 'l', 'u', 'q', 'd', 'g']

/-- Try the alternation `[class]\d+|pin\s*\d+` at the current position;
first alternative first.  Returns the matched text and the remainder. -/
def matchCompAt (cls : List Char) (cs : List Char) : Option (List Char × List Char) :=
  match cs with
  | [] => none
  | c :: rest =>
    if (cls.contains (lowCh c) && (match rest with
        | r :: _ => isDigitCh r
        | [] => false)) then
      some (c :: rest.takeWhile isDigitCh, rest.dropWhile isDigitCh)
    else
      match splitLitCI ['p', 'i', 'n'] cs with
      | some (pinTk, afterPin) =>
        let ws := afterPin.takeWhile isPySpace
        let afterWs := afterPin.dropWhile isPySpace
        match afterWs with
        | d :: _ =>
          if isDigitCh d then
            some (pinTk ++ ws ++ afterWs.takeWhile isDigitCh,
                  afterWs.dropWhile isDigitCh)
          else none
        | [] => none
      | none => none

/-- `re.search` for the alternation: first match scanning left to right;
returns the matched text (`group(1)`). -/
def searchComp (cls : List Char) : List Char → Option (List Char)
  | [] => none
  | c :: cs =>
    match matchCompAt cls (c :: cs) with
    | some (m, _) => some m
    | none => searchComp cls cs

/-- `len(re.findall(...))` for the alternation: count non-overlapping
matches, resuming after each match (fuel as in `findCapsA`). -/
def countCompMatches (cls : List Char) : Nat → List Char → Nat
  | 0, _ => 0
  | _ + 1, [] => 0
  | fuel + 1, c :: cs =>
    match matchCompAt cls (c :: cs) with
    | some (_, rest) => 1 + countCompMatches cls fuel rest
    | none => countCompMatches cls fuel cs

/-- All matches of the alternation, in order (used for the spec-side
notion of "distinct references"). -/
def allCompMatches (cls : List Char) : Nat → List Char → List (List Char)
  | 0, _ => []
  | _ + 1, [] => []
  | fuel + 1, c :: cs =>
    match matchCompAt cls (c :: cs) with
    | some (m, rest) => m :: allCompMatches cls fuel rest
    | none => allCompMatches cls fuel cs

/-! ## Data model: findings, issues, results -/

/-- One extracted finding (`analyzer.py`, `extract_findings`): description,
severity, and kind (`"issue"` or `"verification"`). -/
structure Finding where
  description : String
  severity : String
  type : String
  deriving Repr, DecidableEq

/-- One categorized issue (`analyzer.py`, `identify_issues`). -/
structure Issue where
  description : String
  severity : String
  component : String
  category : String
  deriving Repr, DecidableEq

/-! ## Severity and category classifiers -/

/-- `determine_severity`: keyword-bucket classification of a finding body,
buckets tested in source order, defaulting to INFO. -/
def determine_severity (finding_text : String) : String :=
  let t := lowList finding_text.data
  if ["missing", "incorrect", "wrong", "error", "fault", "broken"].any (kwIn · t) then
    "CRITICAL"
  else if ["warning", "concern", "problem", "issue", "violation"].any (kwIn · t) then
    "HIGH"
  else if ["suboptimal", "improvement", "better", "consider"].any (kwIn · t) then
    "MEDIUM"
  else if ["minor", "cosmetic", "style", "optional"].any (kwIn · t) then
    "LOW"
  else
    "INFO"

/-- The `issue_keywords` table of `identify_issues`, in Python dict
insertion order (CRITICAL, HIGH, MEDIUM, LOW). -/
def issue_keywords : List (String × List String) :=
  [("CRITICAL", ["missing", "incorrect", "wrong", "error", "fault", "broken", "failed"]),
   ("HIGH", ["warning", "concern", "problem", "issue", "mismatch", "violation"]),
   ("MEDIUM", ["suboptimal", "improvement", "better", "alternative", "consider"]),
   ("LOW", ["minor", "cosmetic", "style", "preference", "optional"])]

/-- The inner bucket loop of `identify_issues`: first bucket whose keyword
list intersects the (lower-cased) sentence wins; `break` after the first
match means a sentence is assigned at most one severity. -/
def classifySentence (sentence : List Char) : Option String :=
  let sl := lowList sentence
  firstSome (fun b => if b.2.any (kwIn · sl) then some b.1 else none) issue_keywords

/-- `categorize_issue`: keyword-membership category dispatch, tested in
source order. -/
def categorize_issue (issue_text : String) : String :=
  let t := lowList issue_text.data
  if ["pin", "connection", "wire", "trace"].any (kwIn · t) then "connectivity"
  else if ["voltage", "power", "supply", "vcc", "gnd"].any (kwIn · t) then "power"
  else if ["capacitor", "resistor", "inductor", "component"].any (kwIn · t) then "components"
  else if ["value", "rating", "specification"].any (kwIn · t) then "specifications"
  else "general"

/-! ## Extraction functions -/

/-- The issue-family lead-in keywords of `extract_findings` (each used in a
shape-A pattern), in source order. -/
def finding_lead_keywords : List String := ["issue", "problem", "concern", "warning", "error"]

/-- The verification-family lead-in keywords of `extract_findings`. -/
def verification_lead_keywords : List String := ["verified", "correct", "good"]

/-- The per-match body of the issue-family loop in `extract_findings`:
strip the capture, keep it when non-empty and longer than 10 characters. -/
def findingOfCapture (cap : List Char) : Option Finding :=
  let ft := pyStrip cap
  if ft ≠ [] ∧ ft.length > 10 then
    some { description := String.mk ft,
           severity := determine_severity (String.mk ft),
           type := "issue" }
  else none

/-- The per-match body of the verification-family loop. -/
def verificationOfCapture (cap : List Char) : Option Finding :=
  let ft := pyStrip cap
  if ft ≠ [] ∧ ft.length > 10 then
    some { description := String.mk ft, severity := "INFO", type := "verification" }
  else none

/-- `extract_findings`: issue-family patterns in order, then
verification-family patterns, capped at 10 findings. -/
def extract_findings (response_text : String) : List Finding :=
  let cs := response_text.data
  let issueFs := (finding_lead_keywords.flatMap (fun kw => findAllA kw cs)).filterMap findingOfCapture
  let verFs := (verification_lead_keywords.flatMap (fun kw => findAllA kw cs)).filterMap verificationOfCapture
  (issueFs ++ verFs).take 10

/-- Case-insensitive de-duplication of `extract_recommendations`:
keep the first occurrence of each lower-cased text. -/
def dedupCI (seen : List (List Char)) : List String → List String
  | [] => []
  | r :: rs =>
    let rl := lowList r.data
    if seen.contains rl then dedupCI seen rs
    else r :: dedupCI (rl :: seen) rs

/-- `extract_recommendations`: recommend/suggest use shape A, should/consider
use shape B (`\s+` separator, no optional `s`/colon); length filter,
case-insensitive dedup, capped at 8. -/
def extract_recommendations (response_text : String) : List String :=
  let cs := response_text.data
  let caps := findAllA "recommend" cs ++ findAllA "suggest" cs
           ++ findAllB "should" cs ++ findAllB "consider" cs
  let recs := caps.filterMap (fun cap =>
    let rt := pyStrip cap
    if rt ≠ [] ∧ rt.length > 10 then some (String.mk rt) else none)
  (dedupCI [] recs).take 8

/-- The per-sentence body of `identify_issues`: strip, skip short
sentences, classify by the first matching bucket, extract the component
designator (default `"General"`), categorize. -/
def issueOfSentence (sentenceRaw : List Char) : Option Issue :=
  let s := pyStrip sentenceRaw
  if s.length < 10 then none
  else
    match classifySentence s with
    | some sev =>
      some { description := String.mk s,
             severity := sev,
             component :=
               match searchComp compClassWide s with
               | some m => String.mk m
               | none => "General",
             category := categorize_issue (String.mk s) }
    | none => none

/-- `identify_issues`: sentence split, per-sentence classification, capped
at 8 issues. -/
def identify_issues (response_text : String) : List Issue :=
  ((splitSents response_text.data).filterMap issueOfSentence).take 8

/-! ## Confidence estimation (`estimate_confidence`)

The score is modelled in exact integer hundredths (base 0.50, +0.30
datasheet, +0.10 length, +0.10 references, −0.05 per generic phrase,
clamped to [0, 1], labels at ≥ 0.80 / ≥ 0.60); see the header note on
agreement with the source's float evaluation. -/

def generic_phrases : List String := ["general", "typical", "usually", "might", "possibly"]

/-- `generic_count`: how many of the generic phrases occur in the
lower-cased response. -/
def countGeneric (response_text : String) : Nat :=
  (generic_phrases.filter (fun p => kwIn p (lowList response_text.data))).length

/-- `component_refs`: `len(re.findall(r'[RCLUQDrclugd]\d+|pin\s*\d+', …,
re.IGNORECASE))` — occurrences, not distinct references. -/
def component_ref_count (response_text : String) : Nat :=
  countCompMatches compClassNarrow (response_text.data.length + 1) response_text.data

/-- `estimate_confidence`, with the boolean `has_datasheet` standing for
the truthiness of `analysis_context.get('has_datasheet')`. -/
def estimate_confidence (response_text : String) (has_datasheet : Bool) : String :=
  let score : Int := 50
  let score := if has_datasheet then score + 30 else score
  let score := if response_text.length > 500 then score + 10 else score
  let score := if component_ref_count response_text > 3 then score + 10 else score
  let score := score - (countGeneric response_text : Int) * 5
  let score := max 0 (min 100 score)
  if score ≥ 80 then "High"
  else if score ≥ 60 then "Medium"
  else "Low"

/-! ## Quality assessment (`assess_analysis_quality`) -/

def technical_terms : List String :=
  ["voltage", "current", "resistance", "capacitance", "frequency", "power"]

def actionable_words : List String :=
  ["recommend", "suggest", "should", "add", "remove", "change", "verify"]

/-- Case-folded `[kMGT]` (unit-prefix characters). -/
def unitPrefixChars : List Char := ['k', 'K', 'm', 'M', 'g', 'G', 't', 'T']

/-- Case-folded `[ΩFHVAWHz]` (unit characters; `Ω`/`ω` fold together under
Unicode `re.IGNORECASE`). -/
def unitChars : List Char :=
  ['Ω', 'ω', 'f', 'F', 'h', 'H', 'v', 'V', 'a', 'A', 'w', 'W', 'z', 'Z']

/-- One step of `re.findall(r'\d+[kMGT]?[ΩFHVAWHz]|pin\s*\d+|[RCLUQDrclugd]\d+',
…, re.IGNORECASE)`: try the three alternatives in order at the current
position; returns the remainder after a match. -/
def matchQualAt (cs : List Char) : Option (List Char) :=
  match cs with
  | [] => none
  | c :: _ =>
    if isDigitCh c then
      match cs.dropWhile isDigitCh with
      | [] => none
      | p :: rest1 =>
        if unitPrefixChars.contains p then
          match rest1 with
          | u :: rest2 => if unitChars.contains u then some rest2 else none
          | [] => none
        else if unitChars.contains p then some rest1
        else none
    else
      match matchCompAt compClassNarrow cs with
      | some (_, rest) => some rest
      | none => none

/-- Count of `specific_refs` matches (fuel as in `countCompMatches`). -/
def countQualRefs : Nat → List Char → Nat
  | 0, _ => 0
  | _ + 1, [] => 0
  | fuel + 1, c :: cs =>
    match matchQualAt (c :: cs) with
    | some rest => 1 + countQualRefs fuel rest
    | none => countQualRefs fuel cs

/-- `assess_analysis_quality`: additive heuristic score with per-family
caps, mapped to Excellent/Good/Fair/Basic. -/
def assess_analysis_quality (response_text : String) : String :=
  let tl := lowList response_text.data
  let tech_count := (technical_terms.filter (kwIn · tl)).length
  let quality_score := min tech_count 5
  let specific_refs := countQualRefs (response_text.data.length + 1) response_text.data
  let quality_score := quality_score + min specific_refs 10
  let quality_score := if response_text.length > 300 then quality_score + 2 else quality_score
  let quality_score := if response_text.length > 600 then quality_score + 2 else quality_score
  let actionable_count := (actionable_words.filter (kwIn · tl)).length
  let quality_score := quality_score + min actionable_count 5
  if quality_score ≥ 15 then "Excellent"
  else if quality_score ≥ 10 then "Good"
  else if quality_score ≥ 5 then "Fair"
  else "Basic"

/-! ## Summary and display formatting -/

/-- `create_summary` (its `response_text` parameter is unused in the
source body as well). -/
def create_summary (response_text : String) (findings : List Finding)
    (issues : List Issue) : String :=
  let critN := (issues.filter (fun i => i.severity = "CRITICAL")).length
  let highN := (issues.filter (fun i => i.severity = "HIGH")).length
  let total := issues.length
  let summary_parts :=
    if total > 0 then
      ["Found " ++ toString total ++ " potential issues"]
        ++ (if critN > 0 then [toString critN ++ " critical"] else [])
        ++ (if highN > 0 then [toString highN ++ " high priority"] else [])
    else
      ["No significant issues identified"]
  let positiveN := (findings.filter (fun f => f.type = "verification")).length
  let summary_parts :=
    summary_parts ++ (if positiveN > 0 then [toString positiveN ++ " items verified as correct"] else [])
  String.intercalate ". " summary_parts ++ "."

/-- The severity → icon map of `format_analysis_content` (emoji written by
scalar value). -/
def sevIcon (sev : String) : String :=
  if sev = "CRITICAL" then String.mk [Char.ofNat 0x1F534]
  else if sev = "HIGH" then String.mk [Char.ofNat 0x1F7E0]
  else if sev = "MEDIUM" then String.mk [Char.ofNat 0x1F7E1]
  else if sev = "LOW" then String.mk [Char.ofNat 0x1F7E2]
  else if sev = "INFO" then String.mk [Char.ofNat 0x2139, Char.ofNat 0xFE0F]
  else String.mk [Char.ofNat 0x2022]

/-- `format_analysis_content` (its `issues` parameter is unused in the
source body as well). -/
def format_analysis_content (raw_response : String) (findings : List Finding)
    (recommendations : List String) (issues : List Issue) : String :=
  let findingParts :=
    if findings ≠ [] then
      "## Key Findings\n" ::
        findings.enum.map (fun p =>
          toString (p.1 + 1) ++ ". " ++ sevIcon p.2.severity ++ " " ++ p.2.description ++ "\n")
    else []
  let recParts :=
    if recommendations ≠ [] then
      "\n## Recommendations\n" ::
        recommendations.enum.map (fun p =>
          toString (p.1 + 1) ++ ". " ++ String.mk [Char.ofNat 0x1F4A1] ++ " " ++ p.2 ++ "\n")
    else []
  let rawPart := if findings = [] ∧ recommendations = [] then [raw_response] else []
  String.intercalate "\n" (findingParts ++ recParts ++ rawPart)

/-! ## Prompt library (`prompts.py`)

The full template dictionary, in Python insertion order.  Apostrophes and
braces in template text are written with `\x` escapes. -/

def PROMPT_TEMPLATES : List (String × String) := [
  ("Component Verification",
   "\nAnalyze the schematic components against the provided datasheet:\n1. Verify component values match datasheet recommendations\n   - Check resistor values for pull-ups, pull-downs, and biasing\n   - Verify capacitor values for decoupling, filtering, and timing\n   - Confirm inductor/transformer specifications if present\n\n2. Check pin configurations are correct\n   - Verify all pins are connected according to function\n   - Identify any unconnected pins that require termination\n   - Check for proper power and ground connections\n\n3. Identify missing components mentioned in datasheet\n   - Look for required external components (crystals, capacitors, etc.)\n   - Check for recommended protection circuits\n   - Verify presence of decoupling capacitors\n\n4. Validate power supply requirements\n   - Confirm voltage levels match specifications\n   - Check current capacity is adequate\n   - Verify proper power sequencing if required\n\nPlease provide specific findings with component designators (R1, C1, etc.) and reference relevant datasheet sections.\n"),
  ("Pin Configuration Check",
   "\nReview pin connections against datasheet specifications:\n1. Check all pin assignments are correct\n   - Verify each pin number matches its intended function\n   - Confirm no pins are swapped or misconnected\n   - Check differential pairs are properly routed\n\n2. Verify required pull-ups/pull-downs are present\n   - Identify pins requiring pull-up resistors\n   - Check for pins needing pull-down resistors\n   - Verify resistor values match recommendations\n\n3. Validate power and ground connections\n   - Ensure all power pins are connected\n   - Verify all ground pins are connected\n   - Check for proper power supply decoupling\n\n4. Check for unused pins handling\n   - Identify floating inputs that should be tied\n   - Verify unused outputs are left unconnected\n   - Check special pins (test, mode selection, etc.)\n\nReference the datasheet pin configuration table and provide specific pin numbers in your findings.\n"),
  ("Power Supply Analysis",
   "\nAnalyze power supply design using datasheet specifications:\n1. Verify voltage levels match datasheet requirements\n   - Check input voltage range compliance\n   - Verify regulated output voltages\n   - Confirm voltage tolerances are met\n\n2. Check decoupling capacitor values and placement\n   - Verify capacitor values match recommendations\n   - Check for proper capacitor types (ceramic, electrolytic)\n   - Confirm placement near power pins\n\n3. Validate current capacity requirements\n   - Calculate total current consumption\n   - Verify regulator current rating is adequate\n   - Check for proper heat dissipation\n\n4. Review power sequencing if applicable\n   - Verify correct power-up sequence\n   - Check for required delays between rails\n   - Confirm power-good signals if used\n\nCompare against datasheet electrical characteristics and reference application notes.\n"),
  ("Design Compliance",
   "\nCheck overall design compliance with datasheet recommendations:\n1. Compare to reference designs in datasheet\n   - Identify deviations from recommended circuits\n   - Check if modifications are acceptable\n   - Verify critical circuit sections match\n\n2. Verify all recommended external components\n   - Check for presence of all suggested components\n   - Verify component values and tolerances\n   - Confirm component placement guidelines\n\n3. Check thermal considerations\n   - Verify adequate copper area for heat dissipation\n   - Check for thermal vias if recommended\n   - Confirm ambient temperature specifications\n\n4. Validate application circuit examples\n   - Compare against typical application circuits\n   - Verify any additional features are properly implemented\n   - Check for application-specific requirements\n\nProvide detailed comparison with datasheet recommendations and note any concerns.\n"),
  ("Missing Components",
   "\nIdentify components missing from schematic but required by datasheet:\n1. Check for missing protection circuits\n   - ESD protection diodes\n   - Overvoltage protection\n   - Reverse polarity protection\n   - Current limiting resistors\n\n2. Verify all required external components\n   - Crystal/oscillator and load capacitors\n   - Reset circuit components\n   - Bias resistors and capacitors\n   - Compensation components\n\n3. Check for missing filter components\n   - Input/output filter capacitors\n   - EMI suppression components\n   - Power supply filters\n   - Signal conditioning components\n\n4. Validate crystal/clock circuitry\n   - Crystal and load capacitors\n   - Feedback resistor if required\n   - Clock buffer/driver components\n\nList each missing component with its purpose and datasheet reference.\n"),
  ("Custom Query",
   "\nAnalyze the schematic based on the user\x27s specific question.\n\nConsider the following aspects if relevant:\n- Component values and ratings\n- Pin connections and signal routing  \n- Power supply design\n- Grounding and shielding\n- Signal integrity\n- Thermal management\n- EMC/EMI considerations\n- Safety and protection circuits\n\nProvide a detailed response addressing the user\x27s query with specific references to components and connections visible in the schematic.\n")
]

/-- Ordered-dictionary lookup (`dict.get` on an association list in
insertion order). -/
def assocGet {α : Type} (d : List (String × α)) (k : String) : Option α :=
  match d with
  | [] => none
  | (k0, v) :: rest => if k0 = k then some v else assocGet rest k

/-- `get_prompt_template`: `PROMPT_TEMPLATES.get(analysis_type,
PROMPT_TEMPLATES["Custom Query"])`.  The `.getD ""` default is
unreachable: the `"Custom Query"` key is present. -/
def get_prompt_template (analysis_type : String) : String :=
  (assocGet PROMPT_TEMPLATES analysis_type).getD
    ((assocGet PROMPT_TEMPLATES "Custom Query").getD "")

/-! ## The analyzer pipeline (`analyzer.py`) -/

/-- The Python exceptions raised inside `analyze`'s pipeline. -/
inductive PyErr where
  | attributeError (msg : String)
  | fileNotFoundError (msg : String)
  | valueError (msg : String)
  | connectionError (msg : String)
  | exception (msg : String)
  deriving Repr, DecidableEq

/-- `str(e)` for the exceptions above. -/
def PyErr.message : PyErr → String
  | .attributeError m => m
  | .fileNotFoundError m => m
  | .valueError m => m
  | .connectionError m => m
  | .exception m => m

/-- Python attribute access `.keys()` on a value of type `str`: it raises
`AttributeError` unconditionally, because `str` has no such attribute.
(The source's `validate_analysis_inputs` evaluates
`get_prompt_template("").keys()`, and `get_prompt_template` returns a
string, not the template dictionary.)  The message models Python's
`'str' object has no attribute 'keys'`. -/
def strKeys (s : String) : Except PyErr (List String) :=
  .error (.attributeError "\x27str\x27 object has no attribute \x27keys\x27")

/-- `SchematicAnalyzer.validate_analysis_inputs`, with the external facts
`fileExists` (`os.path.exists(schematic_path)`) and `connected`
(`self.ollama_client.check_connection()`) passed in explicitly.  The
computation of `valid_types` evaluates `.keys()` on the string returned by
`get_prompt_template("")` and therefore raises before the membership test
is ever reached. -/
def validate_analysis_inputs (fileExists connected : Bool)
    (schematic_path analysis_type : String) : Except PyErr Unit :=
  if !fileExists then
    .error (.fileNotFoundError ("Schematic file not found: " ++ schematic_path))
  else
    match strKeys (get_prompt_template "") with
    | .error e => .error e
    | .ok ks =>
      let valid_types := ks ++ ["Custom Query"]
      if !valid_types.contains analysis_type then
        .error (.valueError ("Invalid analysis type: " ++ analysis_type))
      else if !connected then
        .error (.connectionError "Ollama client is not connected")
      else
        .ok ()

/-! ## Context builder (`context_builder.py`)

The datasheet record is modelled as an association list of string fields
(only the `component_name` field is consulted by the embedded parts); the
prompt text and instruction list, which no claim touches, are omitted from
the context model. -/

/-- The `has_datasheet` flag of `build_analysis_context`:
`bool(datasheet_data and datasheet_data.get('component_name') != 'Unknown')`.
An empty record is falsy; for a non-empty record the flag compares
`.get('component_name')` (possibly `None`, modelled `none`) against the
`"Unknown"` sentinel. -/
def hasDatasheetFlag (datasheet_data : List (String × String)) : Bool :=
  !datasheet_data.isEmpty
    && (assocGet datasheet_data "component_name" ≠ some "Unknown")

/-- `os.path.basename` for POSIX paths: the part after the last slash. -/
def basename (path : String) : String :=
  String.mk ((path.data.reverse.takeWhile (· ≠ '/')).reverse)

/-- The parts of the built analysis context consumed downstream by
`process_response` and `estimate_confidence`. -/
structure AnalysisContextM where
  query_type : String
  schematic_filename : String
  has_datasheet : Bool
  datasheet_component : String
  deriving Repr, DecidableEq

/-- `ContextBuilder.build_analysis_context`, restricted to the fields the
pipeline consumes.  `datasheet_component` models
`context.get('datasheet', {}).get('component_name', 'N/A')`: the
`datasheet` sub-record exists only when `datasheet_data` is truthy, and
then carries `datasheet_data.get('component_name', 'Unknown Component')`. -/
def build_analysis_context (schematic_path : String)
    (datasheet_data : List (String × String)) (query_type : String)
    (custom_query : Option String) : AnalysisContextM :=
  { query_type := query_type,
    schematic_filename := basename schematic_path,
    has_datasheet := hasDatasheetFlag datasheet_data,
    datasheet_component :=
      if datasheet_data.isEmpty then "N/A"
      else (assocGet datasheet_data "component_name").getD "Unknown Component" }

/-! ## Model invocation with retry (`perform_ollama_analysis`)

The gateway interaction of one attempt (`generate` + `parse_response`) is
an oracle `Nat → AttemptOutcome` indexed by the attempt number; the
inter-attempt `time.sleep` has no observable effect in the model. -/

/-- What one gateway attempt produces: a parsed response text, or an
exception raised by `generate`/`parse_response`. -/
inductive AttemptOutcome where
  | ok (text : String)
  | exc (msg : String)
  deriving Repr, DecidableEq

/-- The body of one loop iteration: a returned text is accepted when it is
truthy and its stripped length exceeds 10, otherwise the iteration raises
`Exception("Empty or too short response from Ollama")`. -/
def attemptResult (o : AttemptOutcome) : Except String String :=
  match o with
  | .ok t =>
    if t ≠ "" ∧ (pyStrip t.data).length > 10 then .ok t
    else .error "Empty or too short response from Ollama"
  | .exc m => .error m

/-- `str(last_error)`: `None` before any attempt has failed. -/
def lastErrorStr : Option String → String
  | none => "None"
  | some e => e

/-- The retry loop, recursing on the number of remaining attempts
(`max_retries = 3` in `__init__`); on exhaustion it raises the terminal
exception carrying the last underlying error. -/
def performOllamaAux (outcomes : Nat → AttemptOutcome) (attempt : Nat)
    (lastError : Option String) : Nat → Except String String
  | 0 => .error ("Ollama analysis failed after 3 attempts: " ++ lastErrorStr lastError)
  | remaining + 1 =>
    match attemptResult (outcomes attempt) with
    | .ok t => .ok t
    | .error e => performOllamaAux outcomes (attempt + 1) (some e) remaining

/-- `SchematicAnalyzer.perform_ollama_analysis`. -/
def perform_ollama_analysis (outcomes : Nat → AttemptOutcome) : Except String String :=
  performOllamaAux outcomes 0 none 3

/-! ## Results (`process_response`, `create_error_result`, `analyze`) -/

/-- The metadata record of an `AnalysisResult`.  On the success path the
source omits the `error`/`error_message` keys entirely; absence is
modelled as `error := false`, `error_message := none`.  The wall-clock
`analysis_time`/`timestamp` fields are omitted. -/
structure ResultMetadata where
  schematic_file : String
  has_datasheet : Bool
  datasheet_component : String
  confidence : String
  analysis_quality : String
  error : Bool
  error_message : Option String
  deriving Repr, DecidableEq

/-- The `AnalysisResult` dictionary returned by `analyze`. -/
structure AnalysisResultM where
  analysis_type : String
  summary : String
  content : String
  findings : List Finding
  recommendations : List String
  issues : List Issue
  raw_response : String
  metadata : ResultMetadata
  deriving Repr, DecidableEq

/-- `SchematicAnalyzer.process_response`. -/
def process_response (raw_response : String) (ctx : AnalysisContextM) : AnalysisResultM :=
  let findings := extract_findings raw_response
  let recommendations := extract_recommendations raw_response
  let issues := identify_issues raw_response
  { analysis_type := ctx.query_type,
    summary := create_summary raw_response findings issues,
    content := format_analysis_content raw_response findings recommendations issues,
    findings := findings,
    recommendations := recommendations,
    issues := issues,
    raw_response := raw_response,
    metadata :=
      { schematic_file := ctx.schematic_filename,
        has_datasheet := ctx.has_datasheet,
        datasheet_component := ctx.datasheet_component,
        confidence := estimate_confidence raw_response ctx.has_datasheet,
        analysis_quality := assess_analysis_quality raw_response,
        error := false,
        error_message := none } }

/-- The fixed `content` text of an error result (`\u274c` is the cross
mark, `\u2022` the bullet). -/
def errorContent (error_message : String) : String :=
  "\u274c **Analysis Error**\n\n" ++ error_message ++ "\n\nPlease check:\n"
    ++ "\u2022 Ollama is running and accessible\n"
    ++ "\u2022 The schematic image is valid\n"
    ++ "\u2022 Network connectivity is stable\n\n"
    ++ "Try running the analysis again or contact support if the problem persists."

/-- `SchematicAnalyzer.create_error_result` (wall-clock `timestamp`
omitted). -/
def create_error_result (error_message : String) (analysis_type : String) : AnalysisResultM :=
  { analysis_type := analysis_type,
    summary := "Analysis failed: " ++ error_message,
    content := errorContent error_message,
    findings := [],
    recommendations := ["Retry the analysis", "Check system requirements", "Verify file formats"],
    issues := [{ description := "Analysis failed: " ++ error_message,
                 severity := "CRITICAL",
                 component := "System",
                 category := "error" }],
    raw_response := "Error: " ++ error_message,
    metadata :=
      { schematic_file := "Unknown",
        has_datasheet := false,
        datasheet_component := "N/A",
        confidence := "N/A",
        analysis_quality := "Error",
        error := true,
        error_message := some error_message } }

/-- The external collaborators of one `analyze` call. -/
structure AnalyzeEnv where
  fileExists : Bool
  connected : Bool
  imageReady : Bool
  imageError : Option String
  outcomes : Nat → AttemptOutcome

/-- The `try` block of `analyze`: validation, context building, image
preparation (`prepare_analysis_request` raises
`Exception(f"Failed to prepare image: …")` when the package is not ready,
defaulting the reason to `"Unknown error"`), generation with retry, then
response processing. -/
def analyzeBody (env : AnalyzeEnv) (schematic_path : String)
    (datasheet_data : List (String × String)) (analysis_type : String)
    (custom_query : Option String) : Except String AnalysisResultM :=
  match validate_analysis_inputs env.fileExists env.connected schematic_path analysis_type with
  | .error e => .error e.message
  | .ok _ =>
    let ctx := build_analysis_context schematic_path datasheet_data analysis_type custom_query
    if !env.imageReady then
      .error ("Failed to prepare image: " ++ env.imageError.getD "Unknown error")
    else
      match perform_ollama_analysis env.outcomes with
      | .error e => .error e
      | .ok raw => .ok (process_response raw ctx)

/-- `SchematicAnalyzer.analyze`: the single recovery boundary — the `try`
body's exception, if any, is converted by `create_error_result`; no
exception propagates to the caller. -/
def analyze (env : AnalyzeEnv) (schematic_path : String)
    (datasheet_data : List (String × String)) (analysis_type : String)
    (custom_query : Option String) : AnalysisResultM :=
  match analyzeBody env schematic_path datasheet_data analysis_type custom_query with
  | .ok results => results
  | .error e => create_error_result e analysis_type

/-! ## Result cache (`AnalysisCache`)

Modelling notes:
* `hashlib.md5(...).hexdigest()` is modelled by `md5hex`, an injective
  stand-in (the identity on the hashed string): the embedding is faithful
  up to MD5 collisions, which the cache design itself assumes absent.
* `os.stat` is an explicit `Option (Nat × Nat)` (size, mtime) parameter;
  `st_mtime` is modelled at integer precision.  A failing `os.stat` is
  `none` (the source's `except: file_info = "unknown"` branch).
* `json.dumps(datasheet_data, sort_keys=True)` is modelled by `jsonDumps`
  over string-valued records: keys sorted, entries rendered
  `"key": "value"` with `", "` separators inside braces, quotes and
  backslashes escaped.
* `time.time()` is an explicit `now : Nat` parameter. -/

/-- The decimal digit characters, as produced by Python `str` on an
integer digit. -/
def digitCh : Nat → Char
  | 0 => '0'
  | 1 => '1'
  | 2 => '2'
  | 3 => '3'
  | 4 => '4'
  | 5 => '5'
  | 6 => '6'
  | 7 => '7'
  | 8 => '8'
  | 9 => '9'
  | _ => '*'

/-- Python `str` on a natural number: decimal notation. -/
def natToStr (n : Nat) : String :=
  if n = 0 then "0" else String.mk (((Nat.digits 10 n).reverse).map digitCh)

/-- `f"{stat.st_size}_{stat.st_mtime}"`, or `"unknown"` when `os.stat`
raised. -/
def fileInfoStr : Option (Nat × Nat) → String
  | some (size, mtime) => natToStr size ++ "_" ++ natToStr mtime
  | none => "unknown"

/-- JSON string-character escaping (quote and backslash; other characters
are rendered as themselves). -/
def escChar (c : Char) : List Char :=
  if c = '"' ∨ c = '\\' then ['\\', c] else [c]

def escList : List Char → List Char
  | [] => []
  | c :: cs => escChar c ++ escList cs

/-- One `"key": "value"` entry of the JSON rendering. -/
def serEntry (e : String × String) : List Char :=
  '"' :: (escList e.1.data
    ++ ('"' :: ':' :: ' ' :: '"' :: (escList e.2.data ++ ['"'])))

/-- Entries joined with `", "`. -/
def serEntries : List (String × String) → List Char
  | [] => []
  | [e] => serEntry e
  | e :: es => serEntry e ++ (',' :: ' ' :: serEntries es)

/-- Lexicographic ≤ on character lists by code point — how Python compares
strings. -/
def charListLe : List Char → List Char → Bool
  | [], _ => true
  | _ :: _, [] => false
  | a :: as, b :: bs => if a = b then charListLe as bs else decide (a < b)

/-- Stable insertion of an entry by key order. -/
def insertByKey (e : String × String) : List (String × String) → List (String × String)
  | [] => [e]
  | f :: fs => if charListLe e.1.data f.1.data then e :: f :: fs else f :: insertByKey e fs

/-- The entries stably sorted by key (`sort_keys=True`; Python's sort is
stable and compares strings lexicographically by code point). -/
def sortEntries (d : List (String × String)) : List (String × String) :=
  d.foldr insertByKey []

/-- `json.dumps(d, sort_keys=True)` for a string-valued record. -/
def jsonDumps (d : List (String × String)) : String :=
  String.mk ('\x7b' :: (serEntries (sortEntries d) ++ ['\x7d']))

/-- Injective stand-in for `hashlib.md5(key_string.encode()).hexdigest()`
(see the section note). -/
def md5hex (s : String) : String := s

/-- `"|".join(key_parts)`. -/
def joinBar : List String → String
  | [] => ""
  | [s] => s
  | s :: rest => s ++ "|" ++ joinBar rest

/-- `AnalysisCache._generate_key`. -/
def generate_key (schematic_path analysis_type : String)
    (stat : Option (Nat × Nat)) (datasheet_hash : Option String) : String :=
  md5hex (joinBar ([schematic_path, analysis_type, fileInfoStr stat]
    ++ datasheet_hash.toList))

/-- The datasheet hash computed identically in `get` and `put`:
`None` for a falsy record, else the MD5 of the sorted JSON dump. -/
def datasheetHash (datasheet_data : List (String × String)) : Option String :=
  if datasheet_data.isEmpty then none
  else some (md5hex (jsonDumps datasheet_data))

/-- The state of an `AnalysisCache`: insertion-ordered dictionaries for
`self.cache` and `self.access_times`, plus `max_size`. -/
structure AnalysisCache (α : Type) where
  cache : List (String × α)
  access_times : List (String × Nat)
  max_size : Nat

/-- A fresh cache (`AnalysisCache(max_size=100)`). -/
def emptyCache (α : Type) : AnalysisCache α :=
  { cache := [], access_times := [], max_size := 100 }

/-- Python dict assignment: replace in place, or append a new key. -/
def updateAssoc {α : Type} : List (String × α) → String → α → List (String × α)
  | [], k, v => [(k, v)]
  | (k0, v0) :: rest, k, v =>
    if k0 = k then (k0, v) :: rest else (k0, v0) :: updateAssoc rest k v

/-- Python `del d[k]`. -/
def removeKey {α : Type} : List (String × α) → String → List (String × α)
  | [], _ => []
  | (k0, v0) :: rest, k =>
    if k0 = k then rest else (k0, v0) :: removeKey rest k

/-- `min(keys, key=access_times.get)`: the first key attaining the minimal
access time (later keys replace only on strictly smaller values). -/
def argminGo (bestKey : String) (bestTime : Nat) : List (String × Nat) → String
  | [] => bestKey
  | (k, t) :: rest =>
    if t < bestTime then argminGo k t rest else argminGo bestKey bestTime rest

def argminKey : List (String × Nat) → Option String
  | [] => none
  | (k, t) :: rest => some (argminGo k t rest)

/-- `AnalysisCache.get`: a hit refreshes the access time and returns the
cached value; a miss returns `None` and leaves the state unchanged. -/
def cache_get {α : Type} (st : AnalysisCache α) (schematic_path analysis_type : String)
    (stat : Option (Nat × Nat)) (datasheet_data : List (String × String))
    (now : Nat) : Option α × AnalysisCache α :=
  let key := generate_key schematic_path analysis_type stat (datasheetHash datasheet_data)
  match assocGet st.cache key with
  | some r =>
    (some r, { st with access_times := updateAssoc st.access_times key now })
  | none => (none, st)

/-- `AnalysisCache.put`: evict the least-recently-used entry when at
capacity, then store the result and stamp its access time.  (The eviction
`min` over an empty `access_times` — only possible with `max_size = 0` and
an inconsistent state — is modelled as a no-op.) -/
def cache_put {α : Type} (st : AnalysisCache α) (schematic_path analysis_type : String)
    (result : α) (datasheet_data : List (String × String))
    (stat : Option (Nat × Nat)) (now : Nat) : AnalysisCache α :=
  let key := generate_key schematic_path analysis_type stat (datasheetHash datasheet_data)
  let st1 :=
    if st.cache.length ≥ st.max_size then
      match argminKey st.access_times with
      | some oldest =>
        { st with cache := removeKey st.cache oldest,
                  access_times := removeKey st.access_times oldest }
      | none => st
    else st
  { st1 with cache := updateAssoc st1.cache key result,
             access_times := updateAssoc st1.access_times key now }

/-! ## Spec-side definitions for comparison

The following definitions are NOT translations of the source; each follows
the words of a specification claim, for comparison against the functions
embedded above. -/

/-- The raw model text of the end-to-end scenario in the specification. -/
def scenarioText : String :=
  "Issues: R1 is missing a pull-up resistor. Recommend adding a 10k resistor. Verified: C1 value matches datasheet."

/-- The number of DISTINCT component/pin references in the response (the
claim speaks of distinct references; the source counts occurrences). -/
def distinct_component_ref_count (response_text : String) : Nat :=
  ((allCompMatches compClassNarrow (response_text.data.length + 1)
      response_text.data).dedup).length

/-- The confidence estimate exactly as claim C6 words it: base 0.5, +0.3
datasheet, +0.1 length > 500, +0.1 more than 3 distinct references,
clamped, "with no other term contributing"; in integer hundredths. -/
def estimate_confidence_claimed (response_text : String) (has_datasheet : Bool) : String :=
  let score : Int := 50
    + (if has_datasheet then 30 else 0)
    + (if response_text.length > 500 then 10 else 0)
    + (if distinct_component_ref_count response_text > 3 then 10 else 0)
  let score := max 0 (min 100 score)
  if score ≥ 80 then "High"
  else if score ≥ 60 then "Medium"
  else "Low"

/-- The amended claim-C6 formula: as above but counting reference
OCCURRENCES and subtracting 0.05 per generic phrase present before
clamping. -/
def estimate_confidence_amended (response_text : String) (has_datasheet : Bool) : String :=
  let score : Int := 50
    + (if has_datasheet then 30 else 0)
    + (if response_text.length > 500 then 10 else 0)
    + (if component_ref_count response_text > 3 then 10 else 0)
    - (countGeneric response_text : Int) * 5
  let score := max 0 (min 100 score)
  if score ≥ 80 then "High"
  else if score ≥ 60 then "Medium"
  else "Low"

/-! # Theorems

Helper lemmas first, then one theorem per claim (with witnesses and
counterexamples where required). -/

/-- Strings with equal character lists are equal. -/
theorem strExt {s t : String} (h : s.data = t.data) : s = t :=
  congrArg String.mk h

/-- C1 (code bug): with an existing schematic file, a connected gateway
and the recognized category "Component Verification",
`validate_analysis_inputs` raises `AttributeError` — the `valid_types`
computation calls `.keys()` on the string returned by
`get_prompt_template("")` — so `analyze` returns an error result
(`metadata.error = true`) instead of validating the recognized category;
the claim (and the specification's Validating stage) is violated for
every input. -/
theorem C1_validation_raises_attribute_error :
  validate_analysis_inputs true true "board.png" "Component Verification" =
    .error (.attributeError "\x27str\x27 object has no attribute \x27keys\x27") ∧
  (analyze
      { fileExists := true, connected := true, imageReady := true,
        imageError := none,
        outcomes := fun _ => .ok "a response that is long enough to pass" }
      "board.png" [("component_name", "LM7805")]
      "Component Verification" none).metadata.error = true := by
  constructor
  · rfl
  · rfl

/-- C4 counterexample: a PRESENT datasheet record whose component name is
empty — and one with no component-name field at all — still yields
`has_datasheet = true`, contradicting the claim that it is false whenever
the name is absent or empty. -/
theorem C4_counterexample :
  ([("component_name", "")] : List (String × String)) ≠ [] ∧
  (build_analysis_context "s.png" [("component_name", "")] "Custom Query" none).has_datasheet = true ∧
  ([("features", "low noise")] : List (String × String)) ≠ [] ∧
  (build_analysis_context "s.png" [("features", "low noise")] "Custom Query" none).has_datasheet = true := by
  refine ⟨by decide, rfl, by decide, rfl⟩

/-- C4 amended: `has_datasheet` is true iff the datasheet record is
non-empty and its `component_name` entry is not the string `"Unknown"`;
a present record whose component name is absent or empty still counts as
having a datasheet. -/
theorem C4_has_datasheet_iff :
  ∀ (schematic_path : String) (datasheet_data : List (String × String))
    (query_type : String) (custom_query : Option String),
    (build_analysis_context schematic_path datasheet_data query_type custom_query).has_datasheet = true
      ↔ (datasheet_data ≠ [] ∧ assocGet datasheet_data "component_name" ≠ some "Unknown") := by
  intro p ds t q
  simp [build_analysis_context, hasDatasheetFlag, List.isEmpty_iff]

/-- C10: without a usable datasheet the confidence score is at most 0.70,
below the 0.80 threshold, so `estimate_confidence` never returns `"High"`:
the label is always `"Medium"` or `"Low"`. -/
theorem C10_no_high_without_datasheet :
  ∀ response_text : String,
    estimate_confidence response_text false = "Medium"
      ∨ estimate_confidence response_text false = "Low" := by
  intro t
  simp only [estimate_confidence, Bool.false_eq_true, if_false]
  by_cases h2 : t.length > 500 <;>
    by_cases h3 : component_ref_count t > 3 <;>
      simp only [h2, h3, if_true, if_false] <;>
        split_ifs with hH hM <;> first
          | (exfalso; omega)
          | exact Or.inl rfl
          | exact Or.inr rfl

/-- C2: `analyze` is the single recovery boundary: whenever the pipeline
body raises (any exception, from any stage), `analyze` returns — it never
propagates — the well-formed error result: `metadata.error = true` with
the message, summary `"Analysis failed: <reason>"`, exactly one CRITICAL
issue recording the failure, and the fixed boilerplate recommendations. -/
theorem C2_single_recovery_boundary :
  ∀ (env : AnalyzeEnv) (schematic_path : String)
    (datasheet_data : List (String × String)) (analysis_type : String)
    (custom_query : Option String) (e : String),
    analyzeBody env schematic_path datasheet_data analysis_type custom_query = .error e →
    analyze env schematic_path datasheet_data analysis_type custom_query =
        create_error_result e analysis_type ∧
      (analyze env schematic_path datasheet_data analysis_type custom_query).metadata.error = true ∧
      (analyze env schematic_path datasheet_data analysis_type custom_query).metadata.error_message = some e ∧
      (analyze env schematic_path datasheet_data analysis_type custom_query).summary =
        "Analysis failed: " ++ e ∧
      (analyze env schematic_path datasheet_data analysis_type custom_query).issues =
        [{ description := "Analysis failed: " ++ e, severity := "CRITICAL",
           component := "System", category := "error" }] ∧
      (analyze env schematic_path datasheet_data analysis_type custom_query).recommendations =
        ["Retry the analysis", "Check system requirements", "Verify file formats"] := by
  intro env p ds t q e h
  have ha : analyze env p ds t q = create_error_result e t := by
    simp [analyze, h]
  rw [ha]
  exact ⟨rfl, rfl, rfl, rfl, rfl, rfl⟩

/-- C2 witness: a concrete failing pipeline (missing schematic file). -/
theorem C2_single_recovery_boundary_witness :
  analyze
      { fileExists := false, connected := true, imageReady := true,
        imageError := none, outcomes := fun _ => .exc "unused" }
      "missing.png" [] "Custom Query" none =
    create_error_result "Schematic file not found: missing.png" "Custom Query" ∧
  (analyze
      { fileExists := false, connected := true, imageReady := true,
        imageError := none, outcomes := fun _ => .exc "unused" }
      "missing.png" [] "Custom Query" none).metadata.error = true :=
  ⟨(C2_single_recovery_boundary
      { fileExists := false, connected := true, imageReady := true,
        imageError := none, outcomes := fun _ => .exc "unused" }
      "missing.png" [] "Custom Query" none
      "Schematic file not found: missing.png" rfl).1,
   (C2_single_recovery_boundary
      { fileExists := false, connected := true, imageReady := true,
        imageError := none, outcomes := fun _ => .exc "unused" }
      "missing.png" [] "Custom Query" none
      "Schematic file not found: missing.png" rfl).2.1⟩

/-- C5: in `perform_ollama_analysis` a first-attempt response of trimmed
length exactly 11 is accepted and returned; a first-attempt response of
trimmed length ≤ 10 counts as a failed attempt and the loop retries (here:
a good second attempt is returned); and when all three attempts fail the
method raises the terminal exception carrying the last underlying error —
which `create_error_result` (applied by `analyze`) turns into a result
with exactly one CRITICAL issue. -/
theorem C5_retry_and_short_response_boundary :
  ∀ outcomes : Nat → AttemptOutcome,
    (∀ t : String, outcomes 0 = .ok t → (pyStrip t.data).length = 11 →
      perform_ollama_analysis outcomes = .ok t) ∧
    (∀ t u : String, outcomes 0 = .ok t → (pyStrip t.data).length ≤ 10 →
      outcomes 1 = .ok u → (pyStrip u.data).length > 10 →
      perform_ollama_analysis outcomes = .ok u) ∧
    (∀ e0 e1 e2 : String,
      attemptResult (outcomes 0) = .error e0 →
      attemptResult (outcomes 1) = .error e1 →
      attemptResult (outcomes 2) = .error e2 →
      perform_ollama_analysis outcomes =
        .error ("Ollama analysis failed after 3 attempts: " ++ e2)) ∧
    (∀ (e analysis_type : String),
      (create_error_result e analysis_type).issues.map Issue.severity = ["CRITICAL"]) := by
  intro outcomes
  refine ⟨?_, ?_, ?_, ?_⟩
  · intro t h0 h11
    have hne : t ≠ "" := by
      intro he
      rw [he] at h11
      simp [pyStrip] at h11
    simp [perform_ollama_analysis, performOllamaAux, attemptResult, h0, hne, h11]
  · intro t u h0 hshort h1 hlong
    have hne : u ≠ "" := by
      intro he
      rw [he] at hlong
      simp [pyStrip] at hlong
    have hfail : ¬(t ≠ "" ∧ (pyStrip t.data).length > 10) := by
      rintro ⟨-, hgt⟩
      omega
    simp [perform_ollama_analysis, performOllamaAux, attemptResult, h0, h1, hfail, hne, hlong]
  · intro e0 e1 e2 h0 h1 h2
    simp [perform_ollama_analysis, performOllamaAux, h0, h1, h2, lastErrorStr]
  · intro e t
    rfl

/-- C5 witness: the three behaviours at concrete gateway oracles. -/
theorem C5_retry_and_short_response_boundary_witness :
  perform_ollama_analysis (fun _ => .ok "12345678901") = .ok "12345678901" ∧
  perform_ollama_analysis
      (fun n => if n = 0 then .ok "short" else .ok "a sufficiently long reply") =
    .ok "a sufficiently long reply" ∧
  perform_ollama_analysis (fun _ => .exc "connection refused") =
    .error ("Ollama analysis failed after 3 attempts: connection refused") ∧
  (create_error_result "connection refused" "Custom Query").issues.map Issue.severity =
    ["CRITICAL"] :=
  ⟨(C5_retry_and_short_response_boundary (fun _ => .ok "12345678901")).1
     "12345678901" rfl (by decide),
   (C5_retry_and_short_response_boundary
       (fun n => if n = 0 then .ok "short" else .ok "a sufficiently long reply")).2.1
     "short" "a sufficiently long reply" rfl (by decide) rfl (by decide),
   (C5_retry_and_short_response_boundary (fun _ => .exc "connection refused")).2.2.1
     "connection refused" "connection refused" "connection refused" rfl rfl rfl,
   (C5_retry_and_short_response_boundary (fun _ => .exc "connection refused")).2.2.2
     "connection refused" "Custom Query"⟩

/-- C7: severity buckets are tested in the fixed order CRITICAL, HIGH,
MEDIUM, LOW and the first match wins.  A sentence (trimmed length ≥ 10)
containing both a HIGH-bucket and a LOW-bucket keyword — and, per the
claim's own first-match rule, no CRITICAL-bucket keyword — is classified
HIGH and yields exactly one severity; in particular the literal sentence
"This is a minor warning about a mismatch." is classified HIGH, not LOW. -/
theorem C7_severity_bucket_priority :
  (∀ sentence : List Char,
    10 ≤ (pyStrip sentence).length →
    ["warning", "concern", "problem", "issue", "mismatch", "violation"].any
        (kwIn · (lowList (pyStrip sentence))) = true →
    ["minor", "cosmetic", "style", "preference", "optional"].any
        (kwIn · (lowList (pyStrip sentence))) = true →
    ["missing", "incorrect", "wrong", "error", "fault", "broken", "failed"].any
        (kwIn · (lowList (pyStrip sentence))) = false →
    ∃ i : Issue, issueOfSentence sentence = some i ∧ i.severity = "HIGH") ∧
  identify_issues "This is a minor warning about a mismatch." =
    [{ description := "This is a minor warning about a mismatch",
       severity := "HIGH", component := "General", category := "general" }] := by
  constructor
  · intro s hlen hHigh hLow hCrit
    have hnl : ¬((pyStrip s).length < 10) := by omega
    have hcls : classifySentence (pyStrip s) = some "HIGH" := by
      simp only [classifySentence, issue_keywords, firstSome, hHigh, hCrit,
        Bool.false_eq_true, if_false, if_true]
    refine ⟨{ description := String.mk (pyStrip s), severity := "HIGH",
              component :=
                match searchComp compClassWide (pyStrip s) with
                | some m => String.mk m
                | none => "General",
              category := categorize_issue (String.mk (pyStrip s)) }, ?_, rfl⟩
    simp only [issueOfSentence, hnl, if_false, hcls]
  · rfl

/-- C7 witness: a concrete sentence with a HIGH word ("warning") and a LOW
word ("minor") and no CRITICAL word. -/
theorem C7_severity_bucket_priority_witness :
  ∃ i : Issue,
    issueOfSentence " a minor warning here ".data = some i ∧ i.severity = "HIGH" :=
  (C7_severity_bucket_priority).1 " a minor warning here ".data
    (by decide) (by decide) (by decide) (by decide)

/-- C3 counterexample: on the scenario text the single extracted issue has
component "R1" but category "components" — `categorize_issue` reaches the
"resistor" keyword (components bucket) and no connectivity keyword occurs —
so the claimed category "connectivity" is wrong. -/
theorem C3_scenario_counterexample :
  identify_issues scenarioText =
    [{ description := "Issues: R1 is missing a pull-up resistor",
       severity := "CRITICAL", component := "R1", category := "components" }] ∧
  ("components" : String) ≠ "connectivity" := by
  exact ⟨rfl, by decide⟩

/-- C3 amended: on the scenario text, `extract_findings` yields one
issue-kind CRITICAL finding and one verification-kind INFO finding,
`extract_recommendations` yields one recommendation containing
"adding a 10k resistor", and `identify_issues` yields exactly one issue
with component "R1" and category "components". -/
theorem C3_scenario_amended :
  extract_findings scenarioText =
    [{ description := "R1 is missing a pull-up resistor. Recommend adding a 10k resistor. Verified: C1 value matches datasheet.",
       severity := "CRITICAL", type := "issue" },
     { description := "C1 value matches datasheet.",
       severity := "INFO", type := "verification" }] ∧
  extract_recommendations scenarioText =
    ["adding a 10k resistor. Verified: C1 value matches datasheet."] ∧
  (extract_recommendations scenarioText).all
    (fun r => hasSeq "adding a 10k resistor".data r.data) = true ∧
  identify_issues scenarioText =
    [{ description := "Issues: R1 is missing a pull-up resistor",
       severity := "CRITICAL", component := "R1", category := "components" }] := by
  exact ⟨rfl, rfl, rfl, rfl⟩

/-- C6 counterexample: the source subtracts 0.05 per generic phrase and
counts reference occurrences rather than distinct references, so the
claim's formula ("no other term contributing", "distinct") mislabels:
"typical" with a datasheet is Medium (0.75), not High (0.80); and a
response repeating the single reference "R1" four times without a
datasheet is Medium (0.60), not Low (0.50). -/
theorem C6_confidence_counterexample :
  (estimate_confidence "typical" true = "Medium" ∧
   estimate_confidence_claimed "typical" true = "High") ∧
  (estimate_confidence "R1 R1 R1 R1" false = "Medium" ∧
   estimate_confidence_claimed "R1 R1 R1 R1" false = "Low") := by
  exact ⟨⟨rfl, rfl⟩, ⟨rfl, rfl⟩⟩

/-- C6 amended: the score is 0.5, +0.3 with a usable datasheet, +0.1 when
the raw response exceeds 500 characters, +0.1 when more than 3
component/pin reference OCCURRENCES appear, MINUS 0.05 per generic phrase
present (general/typical/usually/might/possibly), clamped to [0,1];
labels: ≥ 0.8 High, ≥ 0.6 Medium, else Low. -/
theorem C6_confidence_amended :
  ∀ (response_text : String) (has_datasheet : Bool),
    estimate_confidence response_text has_datasheet =
      estimate_confidence_amended response_text has_datasheet := by
  intro t hd
  simp only [estimate_confidence, estimate_confidence_amended]
  cases hd <;>
    by_cases h2 : t.length > 500 <;>
      by_cases h3 : component_ref_count t > 3 <;>
        simp [h2, h3]

/-- Elements surviving `dedupCI` were not in the seen set. -/
theorem mem_dedupCI_not_seen :
  ∀ (rs : List String) (seen : List (List Char)) (x : String),
    x ∈ dedupCI seen rs → lowList x.data ∉ seen := by
  intro rs
  induction rs with
  | nil => intro seen x hx; simp [dedupCI] at hx
  | cons r rs ih =>
    intro seen x hx
    by_cases hc : seen.contains (lowList r.data) = true
    · rw [dedupCI, if_pos hc] at hx
      exact ih seen x hx
    · rw [dedupCI, if_neg hc] at hx
      rcases List.mem_cons.mp hx with heq | hx2
      · subst heq
        simpa using hc
      · have h2 := ih (lowList r.data :: seen) x hx2
        intro hmem
        exact h2 (List.mem_cons_of_mem _ hmem)

/-- `dedupCI` output is pairwise distinct under case folding. -/
theorem pairwise_dedupCI :
  ∀ (rs : List String) (seen : List (List Char)),
    (dedupCI seen rs).Pairwise (fun a b => lowList a.data ≠ lowList b.data) := by
  intro rs
  induction rs with
  | nil => intro seen; simp [dedupCI]
  | cons r rs ih =>
    intro seen
    by_cases hc : seen.contains (lowList r.data) = true
    · rw [dedupCI, if_pos hc]
      exact ih seen
    · rw [dedupCI, if_neg hc]
      refine List.Pairwise.cons ?_ (ih _)
      intro y hy heq
      have h2 := mem_dedupCI_not_seen rs (lowList r.data :: seen) y hy
      exact h2 (heq ▸ List.mem_cons_self _ _)

/-- Issues built by `issueOfSentence` default their component to
`"General"` when no designator is found in the sentence. -/
theorem issueOfSentence_component_default :
  ∀ (s : List Char) (i : Issue), issueOfSentence s = some i →
    searchComp compClassWide i.description.data = none → i.component = "General" := by
  intro s i h hs
  unfold issueOfSentence at h
  by_cases hl : (pyStrip s).length < 10
  · simp [hl] at h
  · simp only [hl, if_false] at h
    cases hcl : classifySentence (pyStrip s) with
    | none => rw [hcl] at h; exact absurd h (by simp)
    | some sev =>
      rw [hcl] at h
      have hi : i = { description := String.mk (pyStrip s), severity := sev,
                      component :=
                        match searchComp compClassWide (pyStrip s) with
                        | some m => String.mk m
                        | none => "General",
                      category := categorize_issue (String.mk (pyStrip s)) } := by
        cases h; rfl
      subst hi
      simp only at hs
      rw [hs]

/-- C9: the parsing stage is total (the extractors are Lean functions) and
degrades gracefully on every input: findings are capped at 10,
recommendations are case-insensitively de-duplicated and capped at 8,
issues are capped at 8, and each issue's component defaults to the literal
`"General"` when no designator occurs in its sentence. -/
theorem C9_parser_graceful_degradation :
  ∀ response_text : String,
    (extract_findings response_text).length ≤ 10 ∧
    (extract_recommendations response_text).length ≤ 8 ∧
    (extract_recommendations response_text).Pairwise
      (fun a b => lowList a.data ≠ lowList b.data) ∧
    (identify_issues response_text).length ≤ 8 ∧
    (∀ i ∈ identify_issues response_text,
      searchComp compClassWide i.description.data = none → i.component = "General") := by
  intro t
  refine ⟨?_, ?_, ?_, ?_, ?_⟩
  · simp only [extract_findings]
    exact List.length_take_le _ _
  · simp only [extract_recommendations]
    exact List.length_take_le _ _
  · simp only [extract_recommendations]
    exact (pairwise_dedupCI _ _).sublist (List.take_sublist _ _)
  · simp only [identify_issues]
    exact List.length_take_le _ _
  · intro i hi hs
    simp only [identify_issues] at hi
    have hi2 := List.mem_of_mem_take hi
    rcases List.mem_filterMap.mp hi2 with ⟨s, -, hsome⟩
    exact issueOfSentence_component_default s i hsome hs

/-- C9 witness: caps and the "General" default at a concrete response. -/
theorem C9_parser_graceful_degradation_witness :
  (extract_findings "This is a problem sentence.").length ≤ 10 ∧
  (extract_recommendations "This is a problem sentence.").length ≤ 8 ∧
  (identify_issues "This is a problem sentence.").length ≤ 8 ∧
  ({ description := "This is a problem sentence", severity := "HIGH",
     component := "General", category := "general" } : Issue).component = "General" :=
  ⟨(C9_parser_graceful_degradation "This is a problem sentence.").1,
   (C9_parser_graceful_degradation "This is a problem sentence.").2.1,
   (C9_parser_graceful_degradation "This is a problem sentence.").2.2.2.1,
   (C9_parser_graceful_degradation "This is a problem sentence.").2.2.2.2
     { description := "This is a problem sentence", severity := "HIGH",
       component := "General", category := "general" }
     (by decide) (by decide)⟩

/-! ### Cache-key injectivity lemmas -/

theorem digitCh_ne_underscore : ∀ d : Nat, d < 10 → digitCh d ≠ '_' := by
  intro d hd
  interval_cases d <;> decide

theorem digitCh_inj :
  ∀ d1 d2 : Nat, d1 < 10 → d2 < 10 → digitCh d1 = digitCh d2 → d1 = d2 := by
  intro d1 d2 h1 h2 h
  interval_cases d1 <;> interval_cases d2 <;> revert h <;> decide

theorem mapDigit_inj :
  ∀ l1 l2 : List Nat, (∀ x ∈ l1, x < 10) → (∀ x ∈ l2, x < 10) →
    l1.map digitCh = l2.map digitCh → l1 = l2 := by
  intro l1
  induction l1 with
  | nil =>
    intro l2 _ _ h
    cases l2 with
    | nil => rfl
    | cons b l2 => simp at h
  | cons a l1 ih =>
    intro l2 h1 h2 h
    cases l2 with
    | nil => simp at h
    | cons b l2 =>
      simp only [List.map_cons, List.cons.injEq] at h
      have hab := digitCh_inj a b (h1 a (List.mem_cons_self a l1))
        (h2 b (List.mem_cons_self b l2)) h.1
      have ht := ih l2 (fun x hx => h1 x (List.mem_cons_of_mem _ hx))
        (fun x hx => h2 x (List.mem_cons_of_mem _ hx)) h.2
      rw [hab, ht]

theorem digits_all_lt10 (n : Nat) : ∀ x ∈ (Nat.digits 10 n).reverse, x < 10 := by
  intro x hx
  exact Nat.digits_lt_base (by norm_num) (List.mem_reverse.mp hx)

theorem natToStr_inj : ∀ a b : Nat, natToStr a = natToStr b → a = b := by
  have key : ∀ n : Nat, n ≠ 0 → natToStr n = "0" → False := by
    intro n hn h
    rw [natToStr, if_neg hn] at h
    have hd := congrArg String.data h
    simp only at hd
    have : (Nat.digits 10 n).reverse = [0] := by
      cases hrev : (Nat.digits 10 n).reverse with
      | nil => rw [hrev] at hd; simp at hd
      | cons d tl =>
        rw [hrev] at hd
        cases tl with
        | nil =>
          simp only [List.map_cons, List.map_nil] at hd
          have hd1 : digitCh d = '0' := by
            have := List.head_eq_of_cons_eq hd
            exact this
          have hlt : d < 10 := digits_all_lt10 n d (by rw [hrev]; exact List.mem_cons_self _ _)
          have : d = 0 := digitCh_inj d 0 hlt (by norm_num) (by rw [hd1]; rfl)
          rw [this]
        | cons d2 tl2 => simp at hd
    have hdig : Nat.digits 10 n = [0] := by
      have := congrArg List.reverse this
      simpa using this
    have := Nat.ofDigits_digits 10 n
    rw [hdig] at this
    simp [Nat.ofDigits] at this
    exact hn this.symm
  intro a b h
  by_cases ha : a = 0 <;> by_cases hb : b = 0
  · rw [ha, hb]
  · exfalso
    rw [ha] at h
    exact key b hb (by rw [← h]; rfl)
  · exfalso
    rw [hb] at h
    exact key a ha h
  · rw [natToStr, natToStr, if_neg ha, if_neg hb] at h
    have hd := congrArg String.data h
    simp only at hd
    have := mapDigit_inj _ _ (digits_all_lt10 a) (digits_all_lt10 b) hd
    have hrev := List.reverse_injective this
    calc a = Nat.ofDigits 10 (Nat.digits 10 a) := (Nat.ofDigits_digits 10 a).symm
    _ = Nat.ofDigits 10 (Nat.digits 10 b) := by rw [hrev]
    _ = b := Nat.ofDigits_digits 10 b

theorem natToStr_no_underscore : ∀ n : Nat, '_' ∉ (natToStr n).data := by
  intro n
  rw [natToStr]
  split
  · decide
  · intro hmem
    simp only [List.mem_map] at hmem
    obtain ⟨d, hd, hdc⟩ := hmem
    exact digitCh_ne_underscore d (digits_all_lt10 n d hd) hdc

theorem splitAtUnderscore :
  ∀ xs1 xs2 ys1 ys2 : List Char, '_' ∉ xs1 → '_' ∉ xs2 →
    xs1 ++ '_' :: ys1 = xs2 ++ '_' :: ys2 → xs1 = xs2 ∧ ys1 = ys2 := by
  intro xs1
  induction xs1 with
  | nil =>
    intro xs2 ys1 ys2 _ h2 h
    cases xs2 with
    | nil => simpa using h
    | cons b xs2 =>
      exfalso
      simp only [List.nil_append, List.cons_append, List.cons.injEq] at h
      exact h2 (h.1 ▸ List.mem_cons_self _ _)
  | cons a xs1 ih =>
    intro xs2 ys1 ys2 h1 h2 h
    cases xs2 with
    | nil =>
      exfalso
      simp only [List.cons_append, List.nil_append, List.cons.injEq] at h
      exact h1 (h.1.symm ▸ List.mem_cons_self _ _)
    | cons b xs2 =>
      simp only [List.cons_append, List.cons.injEq] at h
      have hih := ih xs2 ys1 ys2 (fun hm => h1 (List.mem_cons_of_mem _ hm))
        (fun hm => h2 (List.mem_cons_of_mem _ hm)) h.2
      exact ⟨by rw [h.1, hih.1], hih.2⟩

theorem fileInfoStr_some_inj :
  ∀ sz mt sz2 mt2 : Nat,
    fileInfoStr (some (sz, mt)) = fileInfoStr (some (sz2, mt2)) →
    sz = sz2 ∧ mt = mt2 := by
  intro sz mt sz2 mt2 h
  have hd := congrArg String.data h
  simp only [fileInfoStr, String.data_append] at hd
  simp only [List.append_assoc, List.singleton_append] at hd
  have hsplit := splitAtUnderscore _ _ _ _ (natToStr_no_underscore sz)
    (natToStr_no_underscore sz2) hd
  exact ⟨natToStr_inj _ _ (strExt hsplit.1), natToStr_inj _ _ (strExt hsplit.2)⟩

/-- Cancellation for the JSON escape code: an escaped body terminated by an
unescaped quote determines the body and the remainder (the escape code is
prefix-free: a bare `"` never occurs inside an escaped body). -/
theorem escList_cancel :
  ∀ s1 s2 r1 r2 : List Char,
    escList s1 ++ '"' :: r1 = escList s2 ++ '"' :: r2 → s1 = s2 ∧ r1 = r2 := by
  intro s1
  induction s1 with
  | nil =>
    intro s2 r1 r2 h
    cases s2 with
    | nil => simpa using h
    | cons b s2 =>
      exfalso
      by_cases hb : b = '"' ∨ b = '\\'
      · simp only [escList, escChar] at h
        rw [if_pos hb] at h
        simp only [List.nil_append, List.cons_append, List.append_assoc,
          List.cons.injEq] at h
        exact absurd h.1 (by decide)
      · simp only [escList, escChar] at h
        rw [if_neg hb] at h
        simp only [List.nil_append, List.cons_append, List.append_assoc,
          List.cons.injEq] at h
        exact hb (Or.inl h.1.symm)
  | cons a s1 ih =>
    intro s2 r1 r2 h
    cases s2 with
    | nil =>
      exfalso
      by_cases ha : a = '"' ∨ a = '\\'
      · simp only [escList, escChar] at h
        rw [if_pos ha] at h
        simp only [List.nil_append, List.cons_append, List.append_assoc,
          List.cons.injEq] at h
        exact absurd h.1 (by decide)
      · simp only [escList, escChar] at h
        rw [if_neg ha] at h
        simp only [List.nil_append, List.cons_append, List.append_assoc,
          List.cons.injEq] at h
        exact ha (Or.inl h.1)
    | cons b s2 =>
      by_cases ha : a = '"' ∨ a = '\\' <;> by_cases hb : b = '"' ∨ b = '\\'
      · simp only [escList, escChar] at h
        rw [if_pos ha, if_pos hb] at h
        simp only [List.cons_append, List.append_assoc, List.cons.injEq, true_and] at h
        obtain ⟨hab, htail⟩ := h
        obtain ⟨hs, hr⟩ := ih s2 r1 r2 htail
        exact ⟨by rw [hab, hs], hr⟩
      · exfalso
        simp only [escList, escChar] at h
        rw [if_pos ha, if_neg hb] at h
        simp only [List.cons_append, List.append_assoc, List.cons.injEq] at h
        exact hb (Or.inr h.1.symm)
      · exfalso
        simp only [escList, escChar] at h
        rw [if_neg ha, if_pos hb] at h
        simp only [List.cons_append, List.append_assoc, List.cons.injEq] at h
        exact ha (Or.inr h.1)
      · simp only [escList, escChar] at h
        rw [if_neg ha, if_neg hb] at h
        simp only [List.cons_append, List.append_assoc, List.cons.injEq] at h
        obtain ⟨hab, htail⟩ := h
        obtain ⟨hs, hr⟩ := ih s2 r1 r2 htail
        exact ⟨by rw [hab, hs], hr⟩

/-- Cancellation for one serialized `"key": "value"` entry. -/
theorem serEntry_cancel :
  ∀ (e1 e2 : String × String) (r1 r2 : List Char),
    serEntry e1 ++ r1 = serEntry e2 ++ r2 → e1 = e2 ∧ r1 = r2 := by
  intro e1 e2 r1 r2 h
  simp only [serEntry, List.cons_append, List.append_assoc, List.cons.injEq,
    true_and, List.singleton_append, List.nil_append] at h
  obtain ⟨hk, h2⟩ := escList_cancel _ _ _ _ h
  simp only [List.cons.injEq, true_and] at h2
  obtain ⟨hv, hr⟩ := escList_cancel _ _ _ _ h2
  obtain ⟨k1, v1⟩ := e1
  obtain ⟨k2, v2⟩ := e2
  simp only at hk hv
  exact ⟨by rw [strExt hk, strExt hv], hr⟩

/-- The closed entry-list serialization is injective. -/
theorem serEntries_closed_inj :
  ∀ l1 l2 : List (String × String),
    serEntries l1 ++ ['\x7d'] = serEntries l2 ++ ['\x7d'] → l1 = l2 := by
  intro l1
  induction l1 with
  | nil =>
    intro l2 h
    cases l2 with
    | nil => rfl
    | cons e2 es2 =>
      exfalso
      cases es2 with
      | nil =>
        simp only [serEntries, serEntry, List.nil_append, List.cons_append,
          List.append_assoc, List.cons.injEq] at h
        exact absurd h.1 (by decide)
      | cons e3 es3 =>
        simp only [serEntries, serEntry, List.nil_append, List.cons_append,
          List.append_assoc, List.cons.injEq] at h
        exact absurd h.1 (by decide)
  | cons e1 es1 ih =>
    intro l2 h
    cases l2 with
    | nil =>
      exfalso
      cases es1 with
      | nil =>
        simp only [serEntries, serEntry, List.nil_append, List.cons_append,
          List.append_assoc, List.cons.injEq] at h
        exact absurd h.1 (by decide)
      | cons e3 es3 =>
        simp only [serEntries, serEntry, List.nil_append, List.cons_append,
          List.append_assoc, List.cons.injEq] at h
        exact absurd h.1 (by decide)
    | cons e2 es2 =>
      cases es1 with
      | nil =>
        cases es2 with
        | nil =>
          have h' : serEntry e1 ++ ['\x7d'] = serEntry e2 ++ ['\x7d'] := by
            simpa [serEntries] using h
          obtain ⟨he, -⟩ := serEntry_cancel e1 e2 _ _ h'
          rw [he]
        | cons e3 es3 =>
          exfalso
          have h' : serEntry e1 ++ ['\x7d'] =
              serEntry e2 ++ (',' :: ' ' :: (serEntries (e3 :: es3) ++ ['\x7d'])) := by
            simpa [serEntries, List.append_assoc] using h
          obtain ⟨-, hr⟩ := serEntry_cancel e1 e2 _ _ h'
          simp at hr
      | cons e1b es1b =>
        cases es2 with
        | nil =>
          exfalso
          have h' : serEntry e1 ++ (',' :: ' ' :: (serEntries (e1b :: es1b) ++ ['\x7d'])) =
              serEntry e2 ++ ['\x7d'] := by
            simpa [serEntries, List.append_assoc] using h
          obtain ⟨-, hr⟩ := serEntry_cancel e1 e2 _ _ h'
          simp at hr
        | cons e2b es2b =>
          have h' : serEntry e1 ++ (',' :: ' ' :: (serEntries (e1b :: es1b) ++ ['\x7d'])) =
              serEntry e2 ++ (',' :: ' ' :: (serEntries (e2b :: es2b) ++ ['\x7d'])) := by
            simpa [serEntries, List.append_assoc] using h
          obtain ⟨he, hr⟩ := serEntry_cancel e1 e2 _ _ h'
          simp only [List.cons.injEq, true_and] at hr
          rw [he, ih (e2b :: es2b) hr]

/-- The sorted JSON dump determines the sorted entry list. -/
theorem jsonDumps_inj :
  ∀ d1 d2 : List (String × String),
    jsonDumps d1 = jsonDumps d2 → sortEntries d1 = sortEntries d2 := by
  intro d1 d2 h
  have hd : '\x7b' :: (serEntries (sortEntries d1) ++ ['\x7d']) =
      '\x7b' :: (serEntries (sortEntries d2) ++ ['\x7d']) := congrArg String.data h
  simp only [List.cons.injEq, true_and] at hd
  exact serEntries_closed_inj _ _ hd

theorem strAppend_cancel_right {a b c : String} (h : a ++ c = b ++ c) : a = b := by
  apply strExt
  have hd := congrArg String.data h
  rw [String.data_append, String.data_append] at hd
  exact List.append_cancel_right hd

theorem strAppend_cancel_left {a b c : String} (h : a ++ b = a ++ c) : b = c := by
  apply strExt
  have hd := congrArg String.data h
  rw [String.data_append, String.data_append] at hd
  exact List.append_cancel_left hd

/-- Changing only the schematic path changes the cache key. -/
theorem generate_key_inj_path :
  ∀ (p p' ty : String) (stat : Option (Nat × Nat)) (h : Option String),
    generate_key p ty stat h = generate_key p' ty stat h → p = p' := by
  intro p p' ty stat h he
  cases h with
  | none =>
    have he' : (p ++ "|") ++ ((ty ++ "|") ++ fileInfoStr stat) =
        (p' ++ "|") ++ ((ty ++ "|") ++ fileInfoStr stat) := he
    exact strAppend_cancel_right (strAppend_cancel_right he')
  | some hh =>
    have he' : (p ++ "|") ++ ((ty ++ "|") ++ ((fileInfoStr stat ++ "|") ++ hh)) =
        (p' ++ "|") ++ ((ty ++ "|") ++ ((fileInfoStr stat ++ "|") ++ hh)) := he
    exact strAppend_cancel_right (strAppend_cancel_right he')

/-- Changing only the analysis type changes the cache key. -/
theorem generate_key_inj_type :
  ∀ (p ty ty' : String) (stat : Option (Nat × Nat)) (h : Option String),
    generate_key p ty stat h = generate_key p ty' stat h → ty = ty' := by
  intro p ty ty' stat h he
  cases h with
  | none =>
    have he' : (p ++ "|") ++ ((ty ++ "|") ++ fileInfoStr stat) =
        (p ++ "|") ++ ((ty' ++ "|") ++ fileInfoStr stat) := he
    exact strAppend_cancel_right (strAppend_cancel_right (strAppend_cancel_left he'))
  | some hh =>
    have he' : (p ++ "|") ++ ((ty ++ "|") ++ ((fileInfoStr stat ++ "|") ++ hh)) =
        (p ++ "|") ++ ((ty' ++ "|") ++ ((fileInfoStr stat ++ "|") ++ hh)) := he
    exact strAppend_cancel_right (strAppend_cancel_right (strAppend_cancel_left he'))

/-- Changing only the file size or modification time changes the cache
key. -/
theorem generate_key_inj_stat :
  ∀ (p ty : String) (sz mt sz' mt' : Nat) (h : Option String),
    generate_key p ty (some (sz, mt)) h = generate_key p ty (some (sz', mt')) h →
    sz = sz' ∧ mt = mt' := by
  intro p ty sz mt sz' mt' h he
  have hfi : fileInfoStr (some (sz, mt)) = fileInfoStr (some (sz', mt')) := by
    cases h with
    | none =>
      have he' : (p ++ "|") ++ ((ty ++ "|") ++ fileInfoStr (some (sz, mt))) =
          (p ++ "|") ++ ((ty ++ "|") ++ fileInfoStr (some (sz', mt'))) := he
      exact strAppend_cancel_left (strAppend_cancel_left he')
    | some hh =>
      have he' : (p ++ "|") ++ ((ty ++ "|") ++ ((fileInfoStr (some (sz, mt)) ++ "|") ++ hh)) =
          (p ++ "|") ++ ((ty ++ "|") ++ ((fileInfoStr (some (sz', mt')) ++ "|") ++ hh)) := he
      exact strAppend_cancel_right
        (strAppend_cancel_right (strAppend_cancel_left (strAppend_cancel_left he')))
  exact fileInfoStr_some_inj _ _ _ _ hfi

/-- Changing the datasheet content (as a sorted record) changes the cache
key. -/
theorem generate_key_inj_datasheet :
  ∀ (p ty : String) (stat : Option (Nat × Nat)) (ds ds' : List (String × String)),
    generate_key p ty stat (datasheetHash ds) = generate_key p ty stat (datasheetHash ds') →
    sortEntries ds = sortEntries ds' := by
  intro p ty stat ds ds' he
  by_cases h1 : ds.isEmpty <;> by_cases h2 : ds'.isEmpty
  · rw [List.isEmpty_iff.mp h1, List.isEmpty_iff.mp h2]
  · exfalso
    rw [datasheetHash, if_pos h1, datasheetHash, if_neg h2] at he
    have he' : (p ++ "|") ++ ((ty ++ "|") ++ fileInfoStr stat) =
        (p ++ "|") ++ ((ty ++ "|") ++ ((fileInfoStr stat ++ "|") ++ md5hex (jsonDumps ds'))) := he
    have hf := strAppend_cancel_left (strAppend_cancel_left he')
    have hdata := congrArg String.data hf
    rw [String.data_append, String.data_append] at hdata
    have hlen := congrArg List.length hdata
    rw [List.length_append, List.length_append] at hlen
    have hone : ("|" : String).data.length = 1 := rfl
    omega
  · exfalso
    rw [datasheetHash, if_neg h1, datasheetHash, if_pos h2] at he
    have he' : (p ++ "|") ++ ((ty ++ "|") ++ ((fileInfoStr stat ++ "|") ++ md5hex (jsonDumps ds))) =
        (p ++ "|") ++ ((ty ++ "|") ++ fileInfoStr stat) := he
    have hf := strAppend_cancel_left (strAppend_cancel_left he')
    have hdata := congrArg String.data hf.symm
    rw [String.data_append, String.data_append] at hdata
    have hlen := congrArg List.length hdata
    rw [List.length_append, List.length_append] at hlen
    have hone : ("|" : String).data.length = 1 := rfl
    omega
  · rw [datasheetHash, if_neg h1, datasheetHash, if_neg h2] at he
    have he' : (p ++ "|") ++ ((ty ++ "|") ++ ((fileInfoStr stat ++ "|") ++ md5hex (jsonDumps ds))) =
        (p ++ "|") ++ ((ty ++ "|") ++ ((fileInfoStr stat ++ "|") ++ md5hex (jsonDumps ds'))) := he
    have hj : md5hex (jsonDumps ds) = md5hex (jsonDumps ds') :=
      strAppend_cancel_left (strAppend_cancel_left (strAppend_cancel_left he'))
    exact jsonDumps_inj _ _ hj

theorem assocGet_updateAssoc_self :
  ∀ {α : Type} (l : List (String × α)) (k : String) (v : α),
    assocGet (updateAssoc l k v) k = some v := by
  intro α l k v
  induction l with
  | nil => simp [updateAssoc, assocGet]
  | cons p l ih =>
    obtain ⟨k0, v0⟩ := p
    by_cases hp : k0 = k
    · simp [updateAssoc, assocGet, hp]
    · simp [updateAssoc, assocGet, hp, ih]

theorem assocGet_singleton_ne :
  ∀ {α : Type} (k1 k2 : String) (v : α), k1 ≠ k2 → assocGet [(k1, v)] k2 = none := by
  intro α k1 k2 v h
  simp [assocGet, h]

/-- C8: cache correctness.  A `put` followed by a `get` with the same
(image path, size, modification time, analysis type, datasheet content)
returns exactly the stored result — in any cache state; and, starting from
a fresh cache, changing any single key component — the path, the file size
or modification time, the analysis type, or the datasheet content — makes
`get` return `None` (a miss).  Faithful up to MD5 collisions (`md5hex` is
an injective stand-in for the digest). -/
theorem C8_cache_put_get_correctness :
  (∀ (α : Type) (st : AnalysisCache α) (p ty : String) (stat : Option (Nat × Nat))
      (ds : List (String × String)) (r : α) (t1 t2 : Nat),
    (cache_get (cache_put st p ty r ds stat t1) p ty stat ds t2).1 = some r) ∧
  (∀ (α : Type) (r : α) (p p2 ty : String) (stat : Option (Nat × Nat))
      (ds : List (String × String)) (t1 t2 : Nat), p ≠ p2 →
    (cache_get (cache_put (emptyCache α) p ty r ds stat t1) p2 ty stat ds t2).1 = none) ∧
  (∀ (α : Type) (r : α) (p ty ty2 : String) (stat : Option (Nat × Nat))
      (ds : List (String × String)) (t1 t2 : Nat), ty ≠ ty2 →
    (cache_get (cache_put (emptyCache α) p ty r ds stat t1) p ty2 stat ds t2).1 = none) ∧
  (∀ (α : Type) (r : α) (p ty : String) (sz mt sz2 mt2 : Nat)
      (ds : List (String × String)) (t1 t2 : Nat), (sz, mt) ≠ (sz2, mt2) →
    (cache_get (cache_put (emptyCache α) p ty r ds (some (sz, mt)) t1)
        p ty (some (sz2, mt2)) ds t2).1 = none) ∧
  (∀ (α : Type) (r : α) (p ty : String) (stat : Option (Nat × Nat))
      (ds ds2 : List (String × String)) (t1 t2 : Nat),
    sortEntries ds ≠ sortEntries ds2 →
    (cache_get (cache_put (emptyCache α) p ty r ds stat t1) p ty stat ds2 t2).1 = none) := by
  refine ⟨?_, ?_, ?_, ?_, ?_⟩
  · intro α st p ty stat ds r t1 t2
    simp [cache_get, cache_put, assocGet_updateAssoc_self]
  · intro α r p p2 ty stat ds t1 t2 hne
    have hk : generate_key p ty stat (datasheetHash ds) ≠
        generate_key p2 ty stat (datasheetHash ds) :=
      fun he => hne (generate_key_inj_path p p2 ty stat (datasheetHash ds) he)
    simp [cache_get, cache_put, emptyCache, updateAssoc, assocGet, hk]
  · intro α r p ty ty2 stat ds t1 t2 hne
    have hk : generate_key p ty stat (datasheetHash ds) ≠
        generate_key p ty2 stat (datasheetHash ds) :=
      fun he => hne (generate_key_inj_type p ty ty2 stat (datasheetHash ds) he)
    simp [cache_get, cache_put, emptyCache, updateAssoc, assocGet, hk]
  · intro α r p ty sz mt sz2 mt2 ds t1 t2 hne
    have hk : generate_key p ty (some (sz, mt)) (datasheetHash ds) ≠
        generate_key p ty (some (sz2, mt2)) (datasheetHash ds) := by
      intro he
      obtain ⟨h1, h2⟩ := generate_key_inj_stat p ty sz mt sz2 mt2 (datasheetHash ds) he
      exact hne (by rw [h1, h2])
    simp [cache_get, cache_put, emptyCache, updateAssoc, assocGet, hk]
  · intro α r p ty stat ds ds2 t1 t2 hne
    have hk : generate_key p ty stat (datasheetHash ds) ≠
        generate_key p ty stat (datasheetHash ds2) :=
      fun he => hne (generate_key_inj_datasheet p ty stat ds ds2 he)
    simp [cache_get, cache_put, emptyCache, updateAssoc, assocGet, hk]

/-- C8 witness: the hit and the four single-component misses at concrete
inputs. -/
theorem C8_cache_put_get_correctness_witness :
  (cache_get (cache_put (emptyCache Nat) "a.png" "Custom Query" 42
      [("component_name", "LM7805")] (some (5, 7)) 1)
    "a.png" "Custom Query" (some (5, 7)) [("component_name", "LM7805")] 2).1 = some 42 ∧
  (cache_get (cache_put (emptyCache Nat) "a.png" "Custom Query" 42
      [("component_name", "LM7805")] (some (5, 7)) 1)
    "b.png" "Custom Query" (some (5, 7)) [("component_name", "LM7805")] 2).1 = none ∧
  (cache_get (cache_put (emptyCache Nat) "a.png" "Custom Query" 42
      [("component_name", "LM7805")] (some (5, 7)) 1)
    "a.png" "Component Verification" (some (5, 7)) [("component_name", "LM7805")] 2).1 = none ∧
  (cache_get (cache_put (emptyCache Nat) "a.png" "Custom Query" 42
      [("component_name", "LM7805")] (some (5, 7)) 1)
    "a.png" "Custom Query" (some (5, 8)) [("component_name", "LM7805")] 2).1 = none ∧
  (cache_get (cache_put (emptyCache Nat) "a.png" "Custom Query" 42
      [("component_name", "LM7805")] (some (5, 7)) 1)
    "a.png" "Custom Query" (some (5, 7)) [("component_name", "TL072")] 2).1 = none :=
  ⟨C8_cache_put_get_correctness.1 Nat (emptyCache Nat) "a.png" "Custom Query"
     (some (5, 7)) [("component_name", "LM7805")] 42 1 2,
   C8_cache_put_get_correctness.2.1 Nat 42 "a.png" "b.png" "Custom Query"
     (some (5, 7)) [("component_name", "LM7805")] 1 2 (by decide),
   C8_cache_put_get_correctness.2.2.1 Nat 42 "a.png" "Custom Query"
     "Component Verification" (some (5, 7)) [("component_name", "LM7805")] 1 2 (by decide),
   C8_cache_put_get_correctness.2.2.2.1 Nat 42 "a.png" "Custom Query"
     5 7 5 8 [("component_name", "LM7805")] 1 2 (by decide),
   C8_cache_put_get_correctness.2.2.2.2 Nat 42 "a.png" "Custom Query"
     (some (5, 7)) [("component_name", "LM7805")] [("component_name", "TL072")] 1 2 (by decide)⟩

end Selene
